import Mathlib

/-!
Verification development for the gemara-mcp lexicon caching subsystem and
artifact validator (package internal/tool: lexicon.go, resource.go).

The Go code is shallowly embedded: package-level mutable state
(lexiconCache, lexiconCacheTime) becomes an explicit CacheState threaded
through the operations; external collaborators (the HTTP client, the YAML
decoder, the JSON decoder, the CUE registry and engine) become environment
records whose fields record the outcome each collaborator would produce for
the inputs the code passes it.  Time is modelled as an integer number of
nanoseconds, with 0 standing for Go's zero time (time.Time.IsZero).
-/

deriving instance DecidableEq for Except

namespace GemaraMCP

/-- One glossary term (lexicon.go, type LexiconEntry). -/
structure LexiconEntry where
  term : String
  definition : String
  references : List String
deriving DecidableEq

/-- The package-level cache pair: var lexiconCache []LexiconEntry and
var lexiconCacheTime time.Time (lexicon.go lines 23-26).  A time of 0
encodes Go's zero time. -/
structure CacheState where
  lexiconCache : List LexiconEntry
  lexiconCacheTime : Int
deriving DecidableEq

/-- The cache at process start: never populated. -/
def emptyCacheState : CacheState := ⟨[], 0⟩

def lexiconURL : String :=
  "https://raw.githubusercontent.com/gemaraproj/gemara/main/docs/lexicon.yaml"

/-- lexiconCacheTTL = 24 * time.Hour, in nanoseconds (Go time.Duration units). -/
def lexiconCacheTTL : Int := 24 * 60 * 60 * 1000000000

def LexiconResourceURI : String := "https://gemara.openssf.org/model/02-definitions"

def LexiconResourceURIAlias : String := "gemara://lexicon"

def lexiconResourceURI : String := LexiconResourceURI

/-- Outcome of the HTTP round trip: the status code and the result of
reading the response body (io.ReadAll). -/
structure HttpResponse where
  statusCode : Nat
  body : Except String String
deriving DecidableEq

/-- Environment for fetchLexiconFromURL: the outcome each external step
(request construction, transport, YAML decoding) would produce. -/
structure RemoteEnv where
  newRequest : Except String Unit
  doRequest : Except String HttpResponse
  yamlUnmarshal : String → Except String (List LexiconEntry)

/-- fetchLexiconFromURL (lexicon.go lines 117-148): request construction,
transport, status check, body read, YAML decode; each failure is surfaced
with its own message, no retry, and the cache is never touched here. -/
def fetchLexiconFromURL (env : RemoteEnv) : Except String (List LexiconEntry) :=
  match env.newRequest with
  | .error e => .error ("failed to create request: " ++ e)
  | .ok _ =>
    match env.doRequest with
    | .error e => .error ("failed to fetch lexicon: " ++ e)
    | .ok resp =>
      if resp.statusCode ≠ 200 then
        .error ("unexpected status code: " ++ toString resp.statusCode)
      else
        match resp.body with
        | .error e => .error ("failed to read response body: " ++ e)
        | .ok body =>
          match env.yamlUnmarshal body with
          | .error e => .error ("failed to parse YAML: " ++ e)
          | .ok entries => .ok entries

/-- JSON encoding of one string (escaping the characters encoding/json
always escapes for this data). -/
def jsonEscapeChar (c : Char) : String :=
  if c = '"' then "\\\""
  else if c = '\\' then "\\\\"
  else if c = '\n' then "\\n"
  else String.singleton c

def jsonString (s : String) : String :=
  "\"" ++ String.join (s.data.map jsonEscapeChar) ++ "\""

def jsonStringArray (xs : List String) : String :=
  "[" ++ String.intercalate "," (xs.map jsonString) ++ "]"

def jsonEntry (e : LexiconEntry) : String :=
  "\x7b\"term\":" ++ jsonString e.term ++
  ",\"definition\":" ++ jsonString e.definition ++
  ",\"references\":" ++ jsonStringArray e.references ++ "\x7d"

/-- json.Marshal of the cache's entry list (resource.go line 53). -/
def jsonMarshal (entries : List LexiconEntry) : String :=
  "[" ++ String.intercalate "," (entries.map jsonEntry) ++ "]"

/-- The refetch condition of HandleLexiconResource (resource.go line 41):
len(lexiconCache) == 0 || lexiconCacheTime.IsZero() ||
time.Since(lexiconCacheTime) >= lexiconCacheTTL. -/
def needsFetch (s : CacheState) (now : Int) : Bool :=
  decide (s.lexiconCache.length = 0 ∨ s.lexiconCacheTime = 0 ∨
    now - s.lexiconCacheTime ≥ lexiconCacheTTL)

/-- The freshness predicate shared by GetLexicon line 105 and
getLexiconWithURL line 152:
!lexiconCacheTime.IsZero() && time.Since(lexiconCacheTime) < lexiconCacheTTL. -/
def lexiconIsFresh (s : CacheState) (now ttl : Int) : Bool :=
  decide (s.lexiconCacheTime ≠ 0 ∧ now - s.lexiconCacheTime < ttl)

/-- The cache update performed after every successful fetch
(lexicon.go lines 72-73 and 167-168, resource.go lines 48-49):
both fields replaced, the timestamp set to the current time. -/
def writeCache (entries : List LexiconEntry) (now : Int) : CacheState :=
  ⟨entries, now⟩

/-- One element of a resource-read result (mcp.ResourceContents fields
used by this code). -/
structure ResourceContents where
  uri : String
  mimeType : String
  text : String
deriving DecidableEq

structure ReadResourceResult where
  contents : List ResourceContents
deriving DecidableEq

/-- The result payload built at resource.go lines 58-72: one content
element carrying the requested URI (defaulted to the canonical URI when
empty), the fixed MIME type, and the JSON serialization of the cache. -/
def lexiconResult (requestedURI : String) (s : CacheState) : ReadResourceResult :=
  ⟨[⟨(if requestedURI = "" then LexiconResourceURI else requestedURI),
     "application/json", jsonMarshal s.lexiconCache⟩]⟩

/-- HandleLexiconResource (resource.go lines 39-73), with the cache state
passed and returned explicitly.  On a fetch failure the error is wrapped
and the state is returned unchanged. -/
def HandleLexiconResource (env : RemoteEnv) (now : Int) (requestedURI : String)
    (s : CacheState) : Except String ReadResourceResult × CacheState :=
  match (if needsFetch s now then
           match fetchLexiconFromURL env with
           | .error e => Except.error ("failed to fetch lexicon: " ++ e)
           | .ok entries => Except.ok (writeCache entries now)
         else Except.ok s) with
  | .error e => (.error e, s)
  | .ok s2 => (.ok (lexiconResult requestedURI s2), s2)

structure InputGetLexicon where
  refresh : Bool
deriving DecidableEq

structure OutputGetLexicon where
  entries : List LexiconEntry
  source : String
  cached : Bool
deriving DecidableEq

/-- GetLexicon (lexicon.go lines 63-114).  The refresh branch fetches,
updates the cache and reports Cached = false.  The refresh=false branch
delegates to HandleLexiconResource, decodes the JSON payload back into
entries (the decoder is an environment parameter, jsonUnmarshal), and
computes wasCached from the cache timestamp AFTER the resource call, as
the source does at line 105. -/
def GetLexicon (env : RemoteEnv)
    (jsonUnmarshal : String → Except String (List LexiconEntry))
    (now : Int) (input : InputGetLexicon) (s : CacheState) :
    Except String OutputGetLexicon × CacheState :=
  if input.refresh then
    match fetchLexiconFromURL env with
    | .error e => (.error e, s)
    | .ok entries => (.ok ⟨entries, lexiconURL, false⟩, writeCache entries now)
  else
    match HandleLexiconResource env now lexiconResourceURI s with
    | (.error e, s2) => (.error ("failed to read lexicon resource: " ++ e), s2)
    | (.ok result, s2) =>
      match result.contents with
      | [] => (.error "resource returned no contents", s2)
      | c :: _ =>
        match jsonUnmarshal c.text with
        | .error e => (.error ("failed to parse lexicon JSON: " ++ e), s2)
        | .ok entries =>
          (.ok ⟨entries, lexiconURL, lexiconIsFresh s2 now lexiconCacheTTL⟩, s2)

/-- getLexiconWithURL (lexicon.go lines 151-177): the test variant that
checks freshness BEFORE fetching and reports Cached = true only on the
already-fresh path. -/
def getLexiconWithURL (env : RemoteEnv) (now : Int) (input : InputGetLexicon)
    (url : String) (s : CacheState) :
    Except String OutputGetLexicon × CacheState :=
  if !input.refresh && lexiconIsFresh s now lexiconCacheTTL then
    (.ok ⟨s.lexiconCache, url, true⟩, s)
  else
    match fetchLexiconFromURL env with
    | .error e => (.error e, s)
    | .ok entries => (.ok ⟨entries, url, false⟩, writeCache entries now)

structure InputValidateGemaraArtifact where
  artifactContent : String
  definition : String
deriving DecidableEq

structure OutputValidateGemaraArtifact where
  valid : Bool
  errors : List String
  message : String
deriving DecidableEq

/-- strings.HasPrefix(definition, "#") specialized to its single-character
argument: the first character of the string is the marker. -/
def hasHashMark (s : String) : Bool :=
  s.data.head? = some '#'

/-- The definition-name normalization of resource.go lines 138-142. -/
def normalizeDefinition (d : String) : String :=
  if hasHashMark d then d else "#" ++ d

/-- One call to an external collaborator of ValidateGemaraArtifact, in
the order the code performs them. -/
inductive ValidateEvent where
  | registryCreated
  | moduleLoaded
  | schemaBuilt
  | definitionLookup
  | yamlExtracted
  | dataBuilt
  | schemaValidated
deriving DecidableEq

/-- Environment for ValidateGemaraArtifact: the outcome each CUE-side
collaborator would produce for the inputs the code passes it.
definitions is the set of schema paths for which LookupPath(...).Exists()
holds; validateOutcome d c is none when unified.Validate succeeds for
definition d and document c, and some errMsg when it fails with that
error text. -/
structure CueEnv where
  newRegistry : Except String Unit
  loadInstances : List (Except String Unit)
  buildSchema : Except String Unit
  definitions : List String
  yamlExtract : String → Except String Unit
  buildData : String → Except String Unit
  validateOutcome : String → String → Option String

/-- strings.Split(s, "\n") on the character list: n separators yield
n+1 pieces. -/
def splitOnNewline : List Char → List (List Char)
  | [] => [[]]
  | c :: rest =>
    if c = '\n' then [] :: splitOnNewline rest
    else
      match splitOnNewline rest with
      | [] => [[c]]
      | l :: ls => (c :: l) :: ls

def splitLines (s : String) : List String :=
  (splitOnNewline s.data).map (fun l => ⟨l⟩)

/-- The whitespace characters relevant to strings.TrimSpace for these
diagnostics. -/
def isSpaceChar (c : Char) : Bool :=
  c == ' ' || c == '\t' || c == '\n' || c == '\r'

/-- strings.TrimSpace on the character list: drop whitespace from both
ends. -/
def trimChars (l : List Char) : List Char :=
  ((l.dropWhile isSpaceChar).reverse.dropWhile isSpaceChar).reverse

def trimString (s : String) : String :=
  ⟨trimChars s.data⟩

/-- The diagnostic lines built at resource.go lines 207-216:
strings.Split(strings.TrimSpace(errorOutput), "\n") with blank lines
(lines whose TrimSpace is empty) filtered out. -/
def nonBlankLines (errorOutput : String) : List String :=
  (splitLines (trimString errorOutput)).filter
    (fun line => !(trimChars line.data).isEmpty)

/-- The pipeline of ValidateGemaraArtifact after input validation and
definition-name normalization (resource.go lines 144-232): registry
creation, module load, schema build, definition lookup, YAML extraction,
data build, unified validation.  Alongside the result it returns the list
of collaborator calls performed. -/
def validateWithDefinition (env : CueEnv) (content definition : String) :
    List ValidateEvent × Except String OutputValidateGemaraArtifact :=
  match env.newRegistry with
  | .error e =>
    ([.registryCreated], .error ("failed to create CUE registry: " ++ e))
  | .ok _ =>
    match env.loadInstances with
    | [] =>
      ([.registryCreated, .moduleLoaded],
       .error "failed to load module: no instances returned")
    | inst :: _ =>
      match inst with
      | .error e =>
        ([.registryCreated, .moduleLoaded],
         .error ("failed to load module: " ++ e))
      | .ok _ =>
        match env.buildSchema with
        | .error e =>
          ([.registryCreated, .moduleLoaded, .schemaBuilt],
           .error ("failed to build schema: " ++ e))
        | .ok _ =>
          if definition ∈ env.definitions then
            match env.yamlExtract content with
            | .error e =>
              ([.registryCreated, .moduleLoaded, .schemaBuilt,
                .definitionLookup, .yamlExtracted],
               .ok ⟨false, ["Failed to parse YAML: " ++ e],
                    "Validation failed: invalid YAML: " ++ e⟩)
            | .ok _ =>
              match env.buildData content with
              | .error e =>
                ([.registryCreated, .moduleLoaded, .schemaBuilt,
                  .definitionLookup, .yamlExtracted, .dataBuilt],
                 .ok ⟨false, ["Failed to build data instance: " ++ e],
                      "Validation failed: " ++ e⟩)
              | .ok _ =>
                match env.validateOutcome definition content with
                | some errMsg =>
                  ([.registryCreated, .moduleLoaded, .schemaBuilt,
                    .definitionLookup, .yamlExtracted, .dataBuilt,
                    .schemaValidated],
                   .ok ⟨false, nonBlankLines errMsg,
                        "Validation failed: " ++ errMsg⟩)
                | none =>
                  ([.registryCreated, .moduleLoaded, .schemaBuilt,
                    .definitionLookup, .yamlExtracted, .dataBuilt,
                    .schemaValidated],
                   .ok ⟨true, [], "Artifact is valid"⟩)
          else
            ([.registryCreated, .moduleLoaded, .schemaBuilt,
              .definitionLookup],
             .error ("definition " ++ definition ++ " not found in schema"))

/-- ValidateGemaraArtifact (resource.go lines 129-233): input validation
first (before any collaborator call), then definition-name normalization,
then the external pipeline. -/
def ValidateGemaraArtifact (env : CueEnv) (input : InputValidateGemaraArtifact) :
    List ValidateEvent × Except String OutputValidateGemaraArtifact :=
  if input.artifactContent = "" then
    ([], .error "artifact_content is required")
  else if input.definition = "" then
    ([], .error "definition is required")
  else
    validateWithDefinition env input.artifactContent
      (normalizeDefinition input.definition)

/-- One atomic access to the package-level cache variables.  A Go
assignment to lexiconCache or to lexiconCacheTime is one action each;
the cache update of a successful fetch is the two-action sequence
cacheUpdateOps, with no lock held across them.  A read takes a snapshot
of the pair. -/
inductive CacheOp where
  | setEntries (entries : List LexiconEntry)
  | setTime (t : Int)
  | readPair
deriving DecidableEq

/-- Run a schedule of atomic cache accesses, collecting the (entries,
timestamp) pair each read observes. -/
def runOps : List CacheOp → CacheState → CacheState × List (List LexiconEntry × Int)
  | [], s => (s, [])
  | .setEntries entries :: rest, s => runOps rest ⟨entries, s.lexiconCacheTime⟩
  | .setTime t :: rest, s => runOps rest ⟨s.lexiconCache, t⟩
  | .readPair :: rest, s =>
    let r := runOps rest s
    (r.1, (s.lexiconCache, s.lexiconCacheTime) :: r.2)

/-- The cache update a successful fetch performs (lexicon.go lines 72-73
and 167-168, resource.go lines 48-49): two separate assignments. -/
def cacheUpdateOps (entries : List LexiconEntry) (t : Int) : List CacheOp :=
  [.setEntries entries, .setTime t]

/-- zs is an interleaving of xs and ys: each list's actions appear in
order, arbitrarily interleaved, as when two callers run concurrently. -/
inductive Interleaves : List CacheOp → List CacheOp → List CacheOp → Prop where
  | nil : Interleaves [] [] []
  | left {x : CacheOp} {xs ys zs : List CacheOp} :
      Interleaves xs ys zs → Interleaves (x :: xs) ys (x :: zs)
  | right {y : CacheOp} {xs ys zs : List CacheOp} :
      Interleaves xs ys zs → Interleaves xs (y :: ys) (y :: zs)

/-! Concrete fixtures used by witnesses and counterexamples. -/

/-- The two entries of the spec's end-to-end scenario. -/
def sampleEntries : List LexiconEntry :=
  [⟨"Assessment", "Atomic process", ["Layer 5"]⟩,
   ⟨"Control", "Safeguard", ["Layer 2"]⟩]

/-- A remote source that responds successfully with sampleEntries. -/
def goodRemoteEnv : RemoteEnv :=
  ⟨.ok (), .ok ⟨200, .ok "yamlbody"⟩,
   fun b => if b = "yamlbody" then .ok sampleEntries else .error "unexpected body"⟩

/-- A remote source that answers with a server error status. -/
def badRemoteEnv : RemoteEnv :=
  ⟨.ok (), .ok ⟨500, .ok ""⟩, fun _ => .error "unreached"⟩

/-- A JSON decoder consistent with jsonMarshal on sampleEntries, as
encoding/json is. -/
def sampleJsonUnmarshal : String → Except String (List LexiconEntry) :=
  fun s => if s = jsonMarshal sampleEntries then .ok sampleEntries
           else .error "unexpected JSON"

/-! Theorems settling the claims. -/

/-- C1: against an initially empty cache and a successfully responding
remote source, the first GetLexicon call with refresh=false triggers a
fetch yet returns cached = true, because the wasCached freshness check of
lexicon.go line 105 runs after HandleLexiconResource has already written
the cache — contradicting the claim (and the code's own comment, which
says the check is of the state before the resource call).  The immediate
second call also returns cached = true. -/
theorem getLexicon_firstCall_reports_cached_true :
    GetLexicon goodRemoteEnv sampleJsonUnmarshal 1000 ⟨false⟩ emptyCacheState =
      (.ok ⟨sampleEntries, lexiconURL, true⟩, ⟨sampleEntries, 1000⟩)
  ∧ GetLexicon goodRemoteEnv sampleJsonUnmarshal 2000 ⟨false⟩ ⟨sampleEntries, 1000⟩ =
      (.ok ⟨sampleEntries, lexiconURL, true⟩, ⟨sampleEntries, 1000⟩) := by
  exact ⟨rfl, rfl⟩

/-- C4: with refresh=true, GetLexicon always fetches; on success it
overwrites the cache with the fetched entries and the current time and
returns exactly the fetched entries with cached = false; on failure it
returns the fetch error and leaves the cache untouched. -/
theorem getLexicon_refresh_spec (env : RemoteEnv)
    (um : String → Except String (List LexiconEntry)) (now : Int) (s : CacheState) :
    (∀ entries, fetchLexiconFromURL env = .ok entries →
       GetLexicon env um now ⟨true⟩ s =
         (.ok ⟨entries, lexiconURL, false⟩, writeCache entries now))
  ∧ (∀ e, fetchLexiconFromURL env = .error e →
       GetLexicon env um now ⟨true⟩ s = (.error e, s)) := by
  constructor
  · intro entries h
    simp [GetLexicon, h]
  · intro e h
    simp [GetLexicon, h]

/-- Witness for C4 at concrete inputs: a successful refresh against the
good remote and a failed refresh against the bad remote. -/
theorem getLexicon_refresh_spec_witness :
    GetLexicon goodRemoteEnv sampleJsonUnmarshal 1000 ⟨true⟩ emptyCacheState =
      (.ok ⟨sampleEntries, lexiconURL, false⟩, writeCache sampleEntries 1000)
  ∧ GetLexicon badRemoteEnv sampleJsonUnmarshal 1000 ⟨true⟩ ⟨sampleEntries, 5⟩ =
      (.error "unexpected status code: 500", ⟨sampleEntries, 5⟩) := by
  exact ⟨(getLexicon_refresh_spec goodRemoteEnv sampleJsonUnmarshal 1000
            emptyCacheState).1 sampleEntries rfl,
         (getLexicon_refresh_spec badRemoteEnv sampleJsonUnmarshal 1000
            ⟨sampleEntries, 5⟩).2 "unexpected status code: 500" rfl⟩

/-- C3: whenever the remote fetch fails (any of the five failure
categories, all of which surface as an error from fetchLexiconFromURL),
the failing call returns a function error and the cache state after the
call is exactly the state before it — for the refresh branch of
GetLexicon, for HandleLexiconResource on a cache miss, and for the
refresh=false branch of GetLexicon on a cache miss. -/
theorem fetchFailure_preserves_cache (env : RemoteEnv)
    (um : String → Except String (List LexiconEntry)) (now : Int)
    (s : CacheState) (e : String)
    (hf : fetchLexiconFromURL env = .error e) :
    GetLexicon env um now ⟨true⟩ s = (.error e, s)
  ∧ (∀ uri, needsFetch s now = true →
       HandleLexiconResource env now uri s =
         (.error ("failed to fetch lexicon: " ++ e), s))
  ∧ (needsFetch s now = true →
       GetLexicon env um now ⟨false⟩ s =
         (.error ("failed to read lexicon resource: " ++
                  ("failed to fetch lexicon: " ++ e)), s)) := by
  refine ⟨?_, ?_, ?_⟩
  · simp [GetLexicon, hf]
  · intro uri hn
    simp [HandleLexiconResource, hn, hf]
  · intro hn
    simp [GetLexicon, HandleLexiconResource, hn, hf]

/-- Witness for C3: a stale two-entry cache and a remote answering 500;
all three calls fail and leave the cache exactly as it was. -/
theorem fetchFailure_preserves_cache_witness :
    GetLexicon badRemoteEnv sampleJsonUnmarshal (3 * lexiconCacheTTL) ⟨true⟩
        ⟨sampleEntries, 1⟩ =
      (.error "unexpected status code: 500", ⟨sampleEntries, 1⟩)
  ∧ HandleLexiconResource badRemoteEnv (3 * lexiconCacheTTL) LexiconResourceURIAlias
        ⟨sampleEntries, 1⟩ =
      (.error ("failed to fetch lexicon: " ++ "unexpected status code: 500"),
       ⟨sampleEntries, 1⟩)
  ∧ GetLexicon badRemoteEnv sampleJsonUnmarshal (3 * lexiconCacheTTL) ⟨false⟩
        ⟨sampleEntries, 1⟩ =
      (.error ("failed to read lexicon resource: " ++
               ("failed to fetch lexicon: " ++ "unexpected status code: 500")),
       ⟨sampleEntries, 1⟩) := by
  have h := fetchFailure_preserves_cache badRemoteEnv sampleJsonUnmarshal
    (3 * lexiconCacheTTL) ⟨sampleEntries, 1⟩ "unexpected status code: 500" rfl
  exact ⟨h.1, h.2.1 LexiconResourceURIAlias (by decide), h.2.2 (by decide)⟩

/-- C5: the freshness predicate is exactly "timestamp present (non-zero)
and now minus timestamp strictly below the TTL"; for every positive ttl,
a successful fetch at a (positive) time t leaves the cache fresh at every
t2 with t ≤ t2 < t + ttl and stale at every t2 ≥ t + ttl; the production
TTL constant is 24 hours (in nanoseconds). -/
theorem lexicon_freshness_spec (ttl t t2 : Int) (entries : List LexiconEntry)
    (ht : 0 < t) (_httl : 0 < ttl) :
    (∀ s now ttl3, lexiconIsFresh s now ttl3 = true ↔
       (s.lexiconCacheTime ≠ 0 ∧ now - s.lexiconCacheTime < ttl3))
  ∧ (t ≤ t2 → t2 < t + ttl → lexiconIsFresh (writeCache entries t) t2 ttl = true)
  ∧ (t + ttl ≤ t2 → lexiconIsFresh (writeCache entries t) t2 ttl = false)
  ∧ lexiconCacheTTL = 24 * 60 * 60 * 1000000000 := by
  refine ⟨?_, ?_, ?_, rfl⟩
  · intro s now ttl3
    simp [lexiconIsFresh]
  · intro h1 h2
    simp only [lexiconIsFresh, writeCache, decide_eq_true_eq]
    constructor
    · omega
    · omega
  · intro h1
    simp only [lexiconIsFresh, writeCache]
    rw [decide_eq_false_iff_not]
    intro hcontra
    omega

/-- Witness for C5 at ttl = 10, fetch time 5, probe times 7 and 20. -/
theorem lexicon_freshness_spec_witness :
    lexiconIsFresh (writeCache sampleEntries 5) 7 10 = true
  ∧ lexiconIsFresh (writeCache sampleEntries 5) 20 10 = false := by
  exact ⟨(lexicon_freshness_spec 10 5 7 sampleEntries (by decide) (by decide)).2.1
           (by decide) (by decide),
         (lexicon_freshness_spec 10 5 20 sampleEntries (by decide) (by decide)).2.2.1
           (by decide)⟩

/-- Entries written by the first concurrent fetch. -/
def tornEntriesA : List LexiconEntry := [⟨"A", "first fetch", []⟩]

/-- Entries written by the second concurrent fetch. -/
def tornEntriesB : List LexiconEntry := [⟨"B", "second fetch", []⟩]

/-- The second updater's two assignments interleaved with one reader:
the reader lands between the entries write and the timestamp write. -/
def tornMid : List CacheOp :=
  [.setEntries tornEntriesB, .readPair, .setTime 2]

/-- A full schedule: update (tornEntriesA, 1) completes, then update
(tornEntriesB, 2) starts, the reader snapshots the pair, and the second
update's timestamp write lands last. -/
def tornSchedule : List CacheOp :=
  [.setEntries tornEntriesA, .setTime 1, .setEntries tornEntriesB,
   .readPair, .setTime 2]

/-- C2: the cache update is NOT atomic with respect to concurrent
readers.  The two package-level assignments of a cache update
(cacheUpdateOps) carry no lock, so the exhibited interleaving of two
updates and one reader is a legal schedule, and on it the reader observes
(tornEntriesB, 1): the entries of the second fetch paired with the
timestamp of the first — a torn pair equal to no committed (entries,
timestamp) pair and not the initial state. -/
theorem cache_update_torn_read :
    Interleaves (cacheUpdateOps tornEntriesB 2) [CacheOp.readPair] tornMid
  ∧ Interleaves (cacheUpdateOps tornEntriesA 1) tornMid tornSchedule
  ∧ runOps tornSchedule emptyCacheState =
      (⟨tornEntriesB, 2⟩, [(tornEntriesB, 1)])
  ∧ (tornEntriesB, (1 : Int)) ∉
      [(([] : List LexiconEntry), (0 : Int)), (tornEntriesA, 1), (tornEntriesB, 2)] := by
  refine ⟨?_, ?_, rfl, by decide⟩
  · exact .left (.right (.left .nil))
  · exact .left (.left (.right (.right (.right .nil))))

/-- If HandleLexiconResource succeeds, its result is exactly the payload
built at resource.go lines 64-72 from the final cache state. -/
theorem handleLexiconResource_ok_shape (env : RemoteEnv) (now : Int)
    (uri : String) (s : CacheState) (r : ReadResourceResult) (s2 : CacheState)
    (h : HandleLexiconResource env now uri s = (.ok r, s2)) :
    r = lexiconResult uri s2 := by
  unfold HandleLexiconResource at h
  split at h
  · simp at h
  · rw [Prod.mk.injEq] at h
    obtain ⟨h1, h2⟩ := h
    injection h1 with h1
    subst h2
    exact h1.symm

/-- Two strings cannot be equal when one is an extension of a string
already longer than the other. -/
theorem string_append_ne (a e b : String) (h : b.length < a.length) :
    a ++ e ≠ b := by
  intro hEq
  have hlen := congrArg String.length hEq
  rw [String.length_append] at hlen
  omega

/-- C9: every successful HandleLexiconResource call returns exactly one
content element, with MIME type "application/json", text equal to the
JSON serialization of the (final) cache contents — a value independent of
the requested identifier — and URI equal to the requested identifier, or
the canonical identifier when the request is empty; consequently the
"resource returned no contents" branch of GetLexicon is unreachable. -/
theorem handleLexiconResource_success_shape (env : RemoteEnv)
    (um : String → Except String (List LexiconEntry)) (now : Int)
    (uri : String) (s : CacheState) (r : ReadResourceResult) (s2 : CacheState)
    (h : HandleLexiconResource env now uri s = (.ok r, s2)) :
    r.contents = [⟨(if uri = "" then LexiconResourceURI else uri),
                   "application/json", jsonMarshal s2.lexiconCache⟩]
  ∧ ∀ out s3, GetLexicon env um now ⟨false⟩ s = (out, s3) →
      out ≠ .error "resource returned no contents" := by
  constructor
  · rw [handleLexiconResource_ok_shape env now uri s r s2 h]
    rfl
  · intro out s3 hout
    unfold GetLexicon at hout
    simp only [Bool.false_eq_true, if_false] at hout
    rcases hres : HandleLexiconResource env now lexiconResourceURI s with ⟨fst, snd⟩
    rw [hres] at hout
    match fst, hres with
    | .error e, hres =>
      simp only [Prod.mk.injEq] at hout
      rw [← hout.1]
      intro hbad
      injection hbad with hbad
      exact string_append_ne "failed to read lexicon resource: " e
        "resource returned no contents" (by decide) hbad
    | .ok result, hres =>
      rw [handleLexiconResource_ok_shape env now lexiconResourceURI s result snd hres]
        at hout
      simp only [lexiconResult] at hout
      rcases hum : um (jsonMarshal snd.lexiconCache) with e | entries
      · rw [hum] at hout
        simp only [Prod.mk.injEq] at hout
        rw [← hout.1]
        intro hbad
        injection hbad with hbad
        exact string_append_ne "failed to parse lexicon JSON: " e
          "resource returned no contents" (by decide) hbad
      · rw [hum] at hout
        simp only [Prod.mk.injEq] at hout
        rw [← hout.1]
        simp

/-- Witness for C9: a fresh two-entry cache read through the alias URI;
the content element is exactly the serialized cache, and the concrete
GetLexicon call does not produce the unreachable-branch error. -/
theorem handleLexiconResource_success_shape_witness :
    (lexiconResult LexiconResourceURIAlias ⟨sampleEntries, 50⟩).contents =
      [⟨LexiconResourceURIAlias, "application/json", jsonMarshal sampleEntries⟩]
  ∧ (GetLexicon goodRemoteEnv sampleJsonUnmarshal 60 ⟨false⟩
       ⟨sampleEntries, 50⟩).1 ≠ .error "resource returned no contents" := by
  have h := handleLexiconResource_success_shape goodRemoteEnv sampleJsonUnmarshal
    60 LexiconResourceURIAlias ⟨sampleEntries, 50⟩
    (lexiconResult LexiconResourceURIAlias ⟨sampleEntries, 50⟩)
    ⟨sampleEntries, 50⟩ rfl
  exact ⟨h.1, h.2 _ _ rfl⟩

/-- The malformed document of the spec's test scenario. -/
def malformedDoc : String := "invalid: yaml: [unclosed"

/-- A CUE environment whose registry, module load and schema build
succeed, whose schema defines exactly ControlCatalog, and whose YAML
front end rejects malformedDoc. -/
def sampleCueEnv : CueEnv :=
  ⟨.ok (), [.ok ()], .ok (), ["#ControlCatalog"],
   fun c => if c = malformedDoc
            then .error "did not find expected node content" else .ok (),
   fun _ => .ok (),
   fun _ _ => none⟩

/-- C7: an empty document or an empty definition name is rejected with a
function error naming the missing field, and the event trace is empty —
no registry, network or schema collaborator is consulted before the
rejection.  (When the document is empty its check fires first.) -/
theorem validate_empty_input_rejected (env : CueEnv)
    (input : InputValidateGemaraArtifact) :
    (input.artifactContent = "" →
       ValidateGemaraArtifact env input = ([], .error "artifact_content is required"))
  ∧ (input.artifactContent ≠ "" → input.definition = "" →
       ValidateGemaraArtifact env input = ([], .error "definition is required")) := by
  constructor
  · intro h
    simp [ValidateGemaraArtifact, h]
  · intro h1 h2
    simp [ValidateGemaraArtifact, h1, h2]

/-- Witness for C7: empty document, then empty definition name. -/
theorem validate_empty_input_rejected_witness :
    ValidateGemaraArtifact sampleCueEnv ⟨"", "#ControlCatalog"⟩ =
      ([], .error "artifact_content is required")
  ∧ ValidateGemaraArtifact sampleCueEnv ⟨"kind: catalog", ""⟩ =
      ([], .error "definition is required") := by
  exact ⟨(validate_empty_input_rejected sampleCueEnv ⟨"", "#ControlCatalog"⟩).1 rfl,
         (validate_empty_input_rejected sampleCueEnv ⟨"kind: catalog", ""⟩).2
           (by decide) rfl⟩

/-- Counterexample to C6 as stated: the definition name "Bogus" is
non-empty and the document fails to parse in its serialization format,
yet the call returns a FUNCTION ERROR (the definition does not resolve in
the loaded schema, and that check precedes YAML extraction), not a
function success with valid=false. -/
theorem validate_malformed_doc_claim_counterexample :
    sampleCueEnv.yamlExtract malformedDoc =
      .error "did not find expected node content"
  ∧ (ValidateGemaraArtifact sampleCueEnv ⟨malformedDoc, "Bogus"⟩).2 =
      .error "definition #Bogus not found in schema" := by
  exact ⟨rfl, rfl⟩

/-- C6 as amended: when the registry, module load and schema build
succeed and the (normalized) definition name resolves in the schema, a
document that fails to parse yields a function success whose outcome has
valid = false, a non-empty errors list, and a message naming the YAML
document format. -/
theorem validate_malformed_doc_is_validation_failure (env : CueEnv)
    (input : InputValidateGemaraArtifact)
    (rest : List (Except String Unit)) (pe : String)
    (hc : input.artifactContent ≠ "") (hd : input.definition ≠ "")
    (hreg : env.newRegistry = .ok ())
    (hload : env.loadInstances = .ok () :: rest)
    (hbuild : env.buildSchema = .ok ())
    (hdef : normalizeDefinition input.definition ∈ env.definitions)
    (hyaml : env.yamlExtract input.artifactContent = .error pe) :
    (ValidateGemaraArtifact env input).2 =
      .ok ⟨false, ["Failed to parse YAML: " ++ pe],
           "Validation failed: invalid YAML: " ++ pe⟩
  ∧ (["Failed to parse YAML: " ++ pe] : List String) ≠ [] := by
  refine ⟨?_, by simp⟩
  simp [ValidateGemaraArtifact, validateWithDefinition, hc, hd, hreg, hload,
    hbuild, hdef, hyaml]

/-- Witness for amended C6: the malformed document of the spec scenario
against the resolvable definition name ControlCatalog. -/
theorem validate_malformed_doc_is_validation_failure_witness :
    (ValidateGemaraArtifact sampleCueEnv ⟨malformedDoc, "ControlCatalog"⟩).2 =
      .ok ⟨false,
           ["Failed to parse YAML: " ++ "did not find expected node content"],
           "Validation failed: invalid YAML: " ++
             "did not find expected node content"⟩ := by
  exact (validate_malformed_doc_is_validation_failure sampleCueEnv
    ⟨malformedDoc, "ControlCatalog"⟩ [] "did not find expected node content"
    (by decide) (by decide) rfl rfl rfl (by decide) (by decide)).1

/-- Counterexample to C8 as stated: the empty definition name does not
start with the marker, yet calling with "" is a function error at input
validation while calling with "#" ++ "" = "#" proceeds to the schema
lookup and fails differently — the two outcomes are not the same. -/
theorem normalization_claim_counterexample :
    (ValidateGemaraArtifact sampleCueEnv ⟨"kind: catalog", ""⟩).2 =
      .error "definition is required"
  ∧ (ValidateGemaraArtifact sampleCueEnv ⟨"kind: catalog", "#"⟩).2 =
      .error "definition # not found in schema"
  ∧ (ValidateGemaraArtifact sampleCueEnv ⟨"kind: catalog", ""⟩).2 ≠
      (ValidateGemaraArtifact sampleCueEnv ⟨"kind: catalog", "#"⟩).2 := by
  exact ⟨rfl, rfl, by decide⟩

/-- C8 as amended: for every document and every NON-EMPTY definition name
D that does not start with the marker, calling with D and with "#" ++ D
produce identical outcomes (events and result), since both normalize to
the same definition name before any collaborator is consulted. -/
theorem normalization_hash_invariance (env : CueEnv) (doc D : String)
    (hD : D ≠ "") (hh : hasHashMark D = false) :
    ValidateGemaraArtifact env ⟨doc, D⟩ =
      ValidateGemaraArtifact env ⟨doc, "#" ++ D⟩ := by
  have h1 : ("#" ++ D) ≠ "" := by
    intro h
    have h2 : ("#" ++ D).data = ("" : String).data := by rw [h]
    simp [String.data_append] at h2
  have h2 : hasHashMark ("#" ++ D) = true := by
    simp [hasHashMark, String.data_append]
  by_cases hdoc : doc = "" <;>
    simp [ValidateGemaraArtifact, normalizeDefinition, hdoc, hD, h1, h2, hh]

/-- Witness for amended C8: ControlCatalog with and without the marker
give the same outcome. -/
theorem normalization_hash_invariance_witness :
    ValidateGemaraArtifact sampleCueEnv ⟨"kind: catalog", "ControlCatalog"⟩ =
      ValidateGemaraArtifact sampleCueEnv ⟨"kind: catalog", "#ControlCatalog"⟩ := by
  exact normalization_hash_invariance sampleCueEnv "kind: catalog"
    "ControlCatalog" (by decide) (by decide)

/-- A CUE environment whose engine reports a schema mismatch with a
two-violation diagnostic separated by a blank line. -/
def mismatchCueEnv : CueEnv :=
  ⟨.ok (), [.ok ()], .ok (), ["#ControlCatalog"],
   fun _ => .ok (), fun _ => .ok (),
   fun _ _ => some "bad field\n\nmissing name"⟩

/-- C10: every outcome returned as a function success has an empty errors
list exactly when valid is true, and when validity fails at the schema
(unify/validate) step with engine diagnostic m, the errors list is
exactly the lines of m with blank lines filtered out and is non-empty.
The hypothesis hwf records the collaborator contract that the schema
engine's error text contains at least one non-blank line. -/
theorem validation_outcome_errors_iff_valid (env : CueEnv)
    (input : InputValidateGemaraArtifact) (evs : List ValidateEvent)
    (r : OutputValidateGemaraArtifact)
    (hwf : ∀ d c m, env.validateOutcome d c = some m → nonBlankLines m ≠ [])
    (h : ValidateGemaraArtifact env input = (evs, .ok r)) :
    (r.valid = true ↔ r.errors = [])
  ∧ (∀ m, env.yamlExtract input.artifactContent = .ok () →
       env.buildData input.artifactContent = .ok () →
       env.validateOutcome (normalizeDefinition input.definition)
           input.artifactContent = some m →
       r.valid = false ∧ r.errors = nonBlankLines m ∧ r.errors ≠ []) := by
  unfold ValidateGemaraArtifact at h
  split at h
  · simp at h
  · split at h
    · simp at h
    · unfold validateWithDefinition at h
      split at h
      · simp at h
      · split at h
        · simp at h
        · split at h
          · simp at h
          · split at h
            · simp at h
            · split at h
              · split at h
                · rename_i e heqY
                  rw [Prod.mk.injEq] at h
                  obtain ⟨hevs, hr⟩ := h
                  injection hr with hr
                  subst hr
                  refine ⟨by simp, ?_⟩
                  intro m hy hb hv
                  rw [heqY] at hy
                  exact absurd hy (by simp)
                · split at h
                  · rename_i e heqD
                    rw [Prod.mk.injEq] at h
                    obtain ⟨hevs, hr⟩ := h
                    injection hr with hr
                    subst hr
                    refine ⟨by simp, ?_⟩
                    intro m hy hb hv
                    rw [heqD] at hb
                    exact absurd hb (by simp)
                  · split at h
                    · rename_i errMsg heqV
                      rw [Prod.mk.injEq] at h
                      obtain ⟨hevs, hr⟩ := h
                      injection hr with hr
                      subst hr
                      have hne := hwf _ _ _ heqV
                      refine ⟨iff_of_false (by simp) hne, ?_⟩
                      intro m hy hb hv
                      rw [heqV] at hv
                      injection hv with hv
                      subst hv
                      exact ⟨rfl, rfl, hne⟩
                    · rename_i heqV
                      rw [Prod.mk.injEq] at h
                      obtain ⟨hevs, hr⟩ := h
                      injection hr with hr
                      subst hr
                      refine ⟨by simp, ?_⟩
                      intro m hy hb hv
                      rw [heqV] at hv
                      exact absurd hv (by simp)
              · simp at h

/-- Witness for C10: a concrete mismatch outcome; its errors list is the
blank-filtered lines of the engine diagnostic and is non-empty while
valid is false. -/
theorem validation_outcome_errors_iff_valid_witness :
    (OutputValidateGemaraArtifact.mk false ["bad field", "missing name"]
        "Validation failed: bad field\n\nmissing name").valid = false
  ∧ (OutputValidateGemaraArtifact.mk false ["bad field", "missing name"]
        "Validation failed: bad field\n\nmissing name").errors =
      nonBlankLines "bad field\n\nmissing name"
  ∧ (OutputValidateGemaraArtifact.mk false ["bad field", "missing name"]
        "Validation failed: bad field\n\nmissing name").errors ≠ [] := by
  exact (validation_outcome_errors_iff_valid mismatchCueEnv
    ⟨"kind: catalog", "#ControlCatalog"⟩
    [.registryCreated, .moduleLoaded, .schemaBuilt, .definitionLookup,
     .yamlExtracted, .dataBuilt, .schemaValidated]
    ⟨false, ["bad field", "missing name"],
     "Validation failed: bad field\n\nmissing name"⟩
    (by
      intro d c m hm
      injection hm with hm2
      rw [← hm2]
      decide)
    rfl).2 "bad field\n\nmissing name" rfl rfl rfl

end GemaraMCP
